import Mathlib

/-!
Shallow embedding of `src/_bentoml_sdk/_pydantic.py` (BentoML's pydantic
schema-generation extension): the six annotation-resolution handlers and the
dispatch wrapper `BentoMLPydanticGenerateSchema._get_prepare_pydantic_annotations_for_known_type`.

Python runtime types are modelled by `PyType`: a plain class (identified by a
module-qualified name plus the list of its proper ancestors), a parametrized
generic alias (origin plus generic arguments, mirroring `types.GenericAlias`),
or a non-class object.  Python exceptions that the handlers can raise or catch
are modelled by `PyError`; each handler returns
`Except PyError (Option (PyType × List Ann))`, matching the source signature
`tuple[t.Any, list[t.Any]] | None` with exception propagation made explicit.
-/

set_option autoImplicit false

/-- A module-qualified class name.  Stands for the identity of a Python class
object: in this development two classes are the same iff their qualified names
are (class equality in Python is identity, and qualified names are assumed
unique). -/
structure ClassId where
  module : String
  name : String
deriving DecidableEq, Repr

/-- The Python exceptions relevant to this module: `TypeError` (raised by
`np.dtype` on a bad element type and by `issubclass` on a non-class argument,
and caught by the unhashability guard), `IndexError` (tuple subscript out of
range), and `ValueError` with its message (the dtype-conflict error). -/
inductive PyError where
  | typeError
  | indexError
  | valueError (msg : String)
deriving DecidableEq, Repr

/-- Modelled from the spec: a source type is "(module-qualified name,
origin/generic-parameter pair for parametrized types)".  `cls` is a plain
class (`mro` lists its proper ancestors, used by `issubclass`); `generic` is a
parametrized alias such as `np.ndarray[t.Any, np.dtype[np.float32]]`, which
like `types.GenericAlias` delegates `__module__` to its origin; `obj` is a
non-class object (e.g. a function) with its `__module__` and whether it is
hashable (classes and generic aliases are always hashable). -/
inductive PyType where
  | cls (id : ClassId) (mro : List ClassId)
  | generic (origin : PyType) (args : List PyType)
  | obj (module : String) (hashable : Bool)

/-- Modelled from the spec: the annotation objects this resolver recognizes
(`.validators` is outside the provided slice).  `Shape` carries dimensions,
`DType` an element-type name, `ContentType` a MIME string; `TensorSchema`,
`DataframeSchema` (default configuration), `FileSchema` and `PILImageEncoder`
are the produced schema variants.  `known` stands for metadata recognized by
the engine's `collect_known_metadata` utility; `other` is any other opaque
annotation object. -/
inductive Ann where
  | Shape (dimensions : List Int)
  | DType (dtype : String)
  | ContentType (content_type : String)
  | DataframeSchema
  | TensorSchema (format : String) (dtype : Option String) (shape : Option (List Int))
  | FileSchema (content_type : Option String)
  | PILImageEncoder
  | known (tag : String)
  | other (tag : String)
deriving DecidableEq, Repr

/-- `getattr(source, "__module__", "")`.  A generic alias delegates the
attribute to its origin (the behaviour of `types.GenericAlias`). -/
def module_of : PyType → String
  | .cls i _ => i.module
  | .generic origin _ => module_of origin
  | .obj m _ => m

/-- Modelled from the spec: `typing_utils.get_origin` — the origin of a
parametrized type; a non-parametrized type is its own origin (the ML-tensor
handlers apply `issubclass` to it directly, and the spec's property list
expects a bare tensor class with no generic parameter to match). -/
def get_origin : PyType → PyType
  | .generic origin _ => origin
  | t => t

/-- Modelled from the spec: `typing_utils.get_args` — the generic arguments of
a parametrized type, `()` otherwise. -/
def get_args : PyType → List PyType
  | .generic _ args => args
  | _ => []

/-- Whether `hash(obj)` succeeds.  Classes and generic aliases are hashable;
non-class objects carry their own flag. -/
def py_hashable : PyType → Bool
  | .obj _ h => h
  | _ => true

/-- Whether the value is a class object. -/
def is_class : PyType → Bool
  | .cls _ _ => true
  | _ => false

/-- `issubclass(t, target)`: for a class, membership of `target` in the class
itself or its ancestors; for any non-class first argument Python raises
`TypeError`. -/
def py_issubclass (t : PyType) (target : ClassId) : Except PyError Bool :=
  match t with
  | .cls i m => .ok (i == target || m.contains target)
  | _ => .error .typeError

/-- Whether an annotation is metadata known to the validation engine. -/
def is_known : Ann → Bool
  | .known _ => true
  | _ => false

/-- Modelled from the spec: pydantic's
`_known_annotated_metadata.collect_known_metadata`, the engine's
metadata-collection utility that "splits an annotation collection into known
to the engine vs. other", preserving order. -/
def collect_known_metadata (anns : List Ann) : List Ann × List Ann :=
  (anns.filter is_known, anns.filter (fun a => !is_known a))

/-- `s.startswith(p)` (the Python string method used for the module-namespace
checks), computed on the character lists so that concrete instances reduce. -/
def str_startswith (s p : String) : Bool :=
  p.data.isPrefixOf s.data

/-- The `numpy.ndarray` class (empty ancestor list: only identity with it is
ever tested, via `origin is not np.ndarray`). -/
def np_ndarray_id : ClassId := ⟨"numpy", "ndarray"⟩

def np_ndarray : PyType := .cls np_ndarray_id []

/-- `origin is np.ndarray`: identity with the `numpy.ndarray` class object. -/
def is_np_ndarray : PyType → Bool
  | .cls i m => i == np_ndarray_id && m.isEmpty
  | _ => false

/-- The element-type names accepted by `np.dtype`; model of the numeric-array
library's scalar types, which the spec treats as opaque external types. -/
def numpy_scalar_names : List String :=
  ["float16", "float32", "float64", "int8", "int16", "int32", "int64", "uint8", "bool"]

/-- `np.dtype(x).name`: succeeds on the library's scalar type objects and
raises `TypeError` on anything else (model of the external numeric-array
library). -/
def np_dtype_name : PyType → Except PyError String
  | .cls i _ =>
    if i.module == "numpy" && numpy_scalar_names.contains i.name then .ok i.name
    else .error .typeError
  | _ => .error .typeError

/-- The expression `np.dtype(get_args(args[1])[0]).name if args else None`
from `numpy_prepare_pydantic_annotations`, with each Python subscript made
explicit: `args[1]` and `get_args(args[1])[0]` raise `IndexError` when out of
range, and `np.dtype` raises `TypeError` on a malformed element type. -/
def numpy_infer_dtype (source : PyType) : Except PyError (Option String) :=
  let args := get_args source
  if args.isEmpty then .ok none
  else
    match args[1]? with
    | none => .error .indexError
    | some a1 =>
      match (get_args a1)[0]? with
      | none => .error .indexError
      | some e0 =>
        match np_dtype_name e0 with
        | .error e => .error e
        | .ok n => .ok (some n)

/-- The forward annotation loop of `numpy_prepare_pydantic_annotations`
(lines 58-69): `Shape` overwrites the running shape, `DType` conflicts with a
present differing dtype (raising `ValueError`) and otherwise overwrites it,
anything else is appended to the remaining list in order. -/
def numpy_scan (dtype : Option String) (shape : Option (List Int)) :
    List Ann → Except PyError (Option String × Option (List Int) × List Ann)
  | [] => .ok (dtype, shape, [])
  | a :: rest =>
    match a with
    | .Shape dims => numpy_scan dtype (some dims) rest
    | .DType dt =>
      match dtype with
      | some d =>
        if d ≠ dt then
          .error (.valueError ("Conflicting dtype annotations: " ++ d ++ " and " ++ dt))
        else numpy_scan (some dt) shape rest
      | none => numpy_scan (some dt) shape rest
    | _ =>
      match numpy_scan dtype shape rest with
      | .error e => .error e
      | .ok (d, s, r) => .ok (d, s, a :: r)

/-- `numpy_prepare_pydantic_annotations` (lines 39-70).  The `config`
parameter is unused in the source and omitted.  The `try`/`except TypeError`
around the dtype inference catches `TypeError` only; any other exception
propagates. -/
def numpy_prepare_pydantic_annotations (source : PyType) (anns : List Ann) :
    Except PyError (Option (PyType × List Ann)) :=
  if !str_startswith (module_of source) "numpy" then .ok none
  else if !is_np_ndarray (get_origin source) then .ok none
  else
    match numpy_infer_dtype source with
    | .error .typeError => .ok none
    | .error e => .error e
    | .ok dtype0 =>
      match numpy_scan dtype0 none (collect_known_metadata anns).2 with
      | .error e => .error e
      | .ok (dtype, shape, remaining) =>
        .ok (some (source, .TensorSchema "numpy-array" dtype shape :: remaining))

/-- The reverse scan shared verbatim by the torch and tensorflow handlers
(lines 90-96 and 116-122): `for i, a in reversed(list(enumerate(lst)))`,
assigning `shape`/`dtype` on each match and `del lst[i]`.  Rendered as a
structural recursion from the right: the tail (higher indices) is processed
first, so the head of the list is assigned last and matched entries are
dropped. -/
def tensor_scan : List Ann → Option String × Option (List Int) × List Ann
  | [] => (none, none, [])
  | a :: rest =>
    let (d, s, r) := tensor_scan rest
    match a with
    | .Shape dims => (d, some dims, r)
    | .DType dt => (some dt, s, r)
    | _ => (d, s, a :: r)

/-- The class `torch.Tensor`. -/
def torch_Tensor_id : ClassId := ⟨"torch", "Tensor"⟩

def torch_Tensor : PyType := .cls torch_Tensor_id []

/-- `torch_prepare_pydantic_annotations` (lines 73-97).  `issubclass` on a
non-class origin raises `TypeError`, which propagates. -/
def torch_prepare_pydantic_annotations (source : PyType) (anns : List Ann) :
    Except PyError (Option (PyType × List Ann)) :=
  if !str_startswith (module_of source) "torch" then .ok none
  else
    match py_issubclass (get_origin source) torch_Tensor_id with
    | .error e => .error e
    | .ok false => .ok none
    | .ok true =>
      match tensor_scan (collect_known_metadata anns).2 with
      | (dtype, shape, remaining) =>
        .ok (some (source, .TensorSchema "torch-tensor" dtype shape :: remaining))

/-- The class `tensorflow.Tensor` (defined in
`tensorflow.python.framework.ops`). -/
def tf_Tensor_id : ClassId := ⟨"tensorflow.python.framework.ops", "Tensor"⟩

def tf_Tensor : PyType := .cls tf_Tensor_id []

/-- `tf_prepare_pydantic_annotations` (lines 100-123). -/
def tf_prepare_pydantic_annotations (source : PyType) (anns : List Ann) :
    Except PyError (Option (PyType × List Ann)) :=
  if !str_startswith (module_of source) "tensorflow" then .ok none
  else
    match py_issubclass (get_origin source) tf_Tensor_id with
    | .error e => .error e
    | .ok false => .ok none
    | .ok true =>
      match tensor_scan (collect_known_metadata anns).2 with
      | (dtype, shape, remaining) =>
        .ok (some (source, .TensorSchema "tf-tensor" dtype shape :: remaining))

/-- Whether an annotation `isinstance`s `DataframeSchema`. -/
def is_dataframe_schema : Ann → Bool
  | .DataframeSchema => true
  | _ => false

/-- The class `pandas.DataFrame` (defined in `pandas.core.frame`). -/
def pd_DataFrame_id : ClassId := ⟨"pandas.core.frame", "DataFrame"⟩

def pd_DataFrame : PyType := .cls pd_DataFrame_id []

/-- `pandas_prepare_pydantic_annotations` (lines 126-141).  Note the result
pair carries `origin`, not `source`, and a default `DataframeSchema` is
inserted at the front only when none is present. -/
def pandas_prepare_pydantic_annotations (source : PyType) (anns : List Ann) :
    Except PyError (Option (PyType × List Ann)) :=
  if !str_startswith (module_of source) "pandas" then .ok none
  else
    match py_issubclass (get_origin source) pd_DataFrame_id with
    | .error e => .error e
    | .ok false => .ok none
    | .ok true =>
      let remaining := (collect_known_metadata anns).2
      if remaining.any is_dataframe_schema then .ok (some (get_origin source, remaining))
      else .ok (some (get_origin source, .DataframeSchema :: remaining))

/-- The class `PIL.Image.Image`. -/
def pil_Image_id : ClassId := ⟨"PIL.Image", "Image"⟩

def pil_Image : PyType := .cls pil_Image_id []

/-- `pil_prepare_pydantic_annotations` (lines 144-157).  In the source
`origin = get_origin(source) or source`; the modelled `get_origin` is total
and never falsy, so the `or source` fallback is the identity here. -/
def pil_prepare_pydantic_annotations (source : PyType) (anns : List Ann) :
    Except PyError (Option (PyType × List Ann)) :=
  if !str_startswith (module_of source) "PIL." then .ok none
  else
    match py_issubclass (get_origin source) pil_Image_id with
    | .error e => .error e
    | .ok false => .ok none
    | .ok true =>
      .ok (some (get_origin source, .PILImageEncoder :: (collect_known_metadata anns).2))

/-- The six `pathlib` classes of the source's `source not in {...}` set, with
their proper ancestors among themselves. -/
def pathlib_PurePath_id : ClassId := ⟨"pathlib", "PurePath"⟩

def pathlib_PurePosixPath_id : ClassId := ⟨"pathlib", "PurePosixPath"⟩

def pathlib_PureWindowsPath_id : ClassId := ⟨"pathlib", "PureWindowsPath"⟩

def pathlib_Path_id : ClassId := ⟨"pathlib", "Path"⟩

def pathlib_PosixPath_id : ClassId := ⟨"pathlib", "PosixPath"⟩

def pathlib_WindowsPath_id : ClassId := ⟨"pathlib", "WindowsPath"⟩

def pathlib_PurePath : PyType := .cls pathlib_PurePath_id []

def pathlib_PurePosixPath : PyType := .cls pathlib_PurePosixPath_id [pathlib_PurePath_id]

def pathlib_PureWindowsPath : PyType := .cls pathlib_PureWindowsPath_id [pathlib_PurePath_id]

def pathlib_Path : PyType := .cls pathlib_Path_id [pathlib_PurePath_id]

def pathlib_PosixPath : PyType :=
  .cls pathlib_PosixPath_id [pathlib_Path_id, pathlib_PurePosixPath_id, pathlib_PurePath_id]

def pathlib_WindowsPath : PyType :=
  .cls pathlib_WindowsPath_id [pathlib_Path_id, pathlib_PureWindowsPath_id, pathlib_PurePath_id]

/-- `source not in {PurePath, PurePosixPath, PureWindowsPath, Path, PosixPath,
WindowsPath}` (lines 165-172): set membership of classes is identity, so the
source must be exactly one of the six class objects. -/
def in_path_set (t : PyType) : Bool :=
  match t with
  | .cls i m =>
    (i == pathlib_PurePath_id && m == ([] : List ClassId)) ||
    (i == pathlib_PurePosixPath_id && m == [pathlib_PurePath_id]) ||
    (i == pathlib_PureWindowsPath_id && m == [pathlib_PurePath_id]) ||
    (i == pathlib_Path_id && m == [pathlib_PurePath_id]) ||
    (i == pathlib_PosixPath_id && m == [pathlib_Path_id, pathlib_PurePosixPath_id, pathlib_PurePath_id]) ||
    (i == pathlib_WindowsPath_id && m == [pathlib_Path_id, pathlib_PureWindowsPath_id, pathlib_PurePath_id])
  | _ => false

/-- The reverse `ContentType` scan of `pathlib_prepare_pydantic_annotations`
(lines 179-182), rendered like `tensor_scan`: the head of the list is
assigned last, every `ContentType` entry is dropped. -/
def path_scan : List Ann → Option String × List Ann
  | [] => (none, [])
  | a :: rest =>
    let (ct, r) := path_scan rest
    match a with
    | .ContentType c => (some c, r)
    | _ => (ct, a :: r)

/-- `pathlib_prepare_pydantic_annotations` (lines 160-183). -/
def pathlib_prepare_pydantic_annotations (source : PyType) (anns : List Ann) :
    Except PyError (Option (PyType × List Ann)) :=
  if !in_path_set source then .ok none
  else
    match path_scan (collect_known_metadata anns).2 with
    | (content_type, remaining) =>
      .ok (some (source, .FileSchema content_type :: remaining))

/-- `CUSTOM_PREPARE_METHODS` (lines 186-195): numpy, torch, tensorflow,
pandas, PIL — in this order. -/
def CUSTOM_PREPARE_METHODS :
    List (PyType → List Ann → Except PyError (Option (PyType × List Ann))) :=
  [numpy_prepare_pydantic_annotations,
   torch_prepare_pydantic_annotations,
   tf_prepare_pydantic_annotations,
   pandas_prepare_pydantic_annotations,
   pil_prepare_pydantic_annotations]

/-- The `for preparer in CUSTOM_PREPARE_METHODS` loop (lines 219-223): call
each in turn, return the first non-`None` result, propagate any exception. -/
def try_preparers :
    List (PyType → List Ann → Except PyError (Option (PyType × List Ann))) →
    PyType → List Ann → Except PyError (Option (PyType × List Ann))
  | [], _, _ => .ok none
  | p :: rest, o, anns =>
    match p o anns with
    | .error e => .error e
    | .ok (some res) => .ok (some res)
    | .ok none => try_preparers rest o anns

/-- `BentoMLPydanticGenerateSchema._get_prepare_pydantic_annotations_for_known_type`
(lines 198-223).  `builtin` stands for the engine's own resolution
(`super()._get_prepare_pydantic_annotations_for_known_type`), an opaque
external collaborator.  The `try: hash(obj) except TypeError: return None`
guard is the `py_hashable` test. -/
def _get_prepare_pydantic_annotations_for_known_type
    (builtin : PyType → List Ann → Option (PyType × List Ann))
    (o : PyType) (anns : List Ann) : Except PyError (Option (PyType × List Ann)) :=
  if !py_hashable o then .ok none
  else
    match pathlib_prepare_pydantic_annotations o anns with
    | .error e => .error e
    | .ok (some res) => .ok (some res)
    | .ok none =>
      match builtin o anns with
      | some res => .ok (some res)
      | none => try_preparers CUSTOM_PREPARE_METHODS o anns

/-- Whether an annotation is a `Shape` or a `DType` (the kinds consumed by
the tensor scans). -/
def is_shape_or_dtype : Ann → Bool
  | .Shape _ => true
  | .DType _ => true
  | _ => false

/-- Whether an annotation is a `ContentType`. -/
def is_content_type : Ann → Bool
  | .ContentType _ => true
  | _ => false

/-- The dtype of the earliest (lowest-index) `DType` annotation, if any. -/
def first_dtype : List Ann → Option String
  | [] => none
  | .DType d :: _ => some d
  | _ :: rest => first_dtype rest

/-- The dimensions of the earliest (lowest-index) `Shape` annotation, if
any. -/
def first_shape : List Ann → Option (List Int)
  | [] => none
  | .Shape dims :: _ => some dims
  | _ :: rest => first_shape rest

/-- The value of the earliest (lowest-index) `ContentType` annotation, if
any. -/
def first_content_type : List Ann → Option String
  | [] => none
  | .ContentType c :: _ => some c
  | _ :: rest => first_content_type rest

/-- `typing.Any` as a generic argument. -/
def typing_Any : PyType := .cls ⟨"typing", "Any"⟩ []

/-- The class `builtins.int`, a generic argument that is not a dtype. -/
def builtins_int : PyType := .cls ⟨"builtins", "int"⟩ []

/-- A numpy scalar type object, e.g. `np.float32`. -/
def np_scalar (n : String) : PyType := .cls ⟨"numpy", n⟩ []

/-- `np.dtype[np.float32]`-style parametrized dtype. -/
def np_dtype_of (n : String) : PyType := .generic (.cls ⟨"numpy", "dtype"⟩ []) [np_scalar n]

/-- `np.ndarray[t.Any, np.dtype[<n>]]`. -/
def np_ndarray_of (n : String) : PyType := .generic np_ndarray [typing_Any, np_dtype_of n]

/-! Helper lemmas about the scans and the dispatch. -/

theorem tensor_scan_eq (l : List Ann) :
    tensor_scan l =
      (first_dtype l, first_shape l, l.filter (fun a => !is_shape_or_dtype a)) := by
  induction l with
  | nil => rfl
  | cons a rest ih =>
    cases a <;>
      simp [tensor_scan, first_dtype, first_shape, is_shape_or_dtype, List.filter_cons, ih]

theorem path_scan_eq (l : List Ann) :
    path_scan l = (first_content_type l, l.filter (fun a => !is_content_type a)) := by
  induction l with
  | nil => rfl
  | cons a rest ih =>
    cases a <;> simp [path_scan, first_content_type, is_content_type, List.filter_cons, ih]

theorem numpy_scan_cons_other (dd : Option String) (s : Option (List Int)) (a : Ann)
    (rest : List Ann) (h : is_shape_or_dtype a = false) (d' : Option String)
    (s' : Option (List Int)) (r' : List Ann)
    (hr : numpy_scan dd s rest = .ok (d', s', r')) :
    numpy_scan dd s (a :: rest) = .ok (d', s', a :: r') := by
  cases a <;> simp_all [numpy_scan, is_shape_or_dtype]

theorem numpy_scan_cons_other_err (dd : Option String) (s : Option (List Int)) (a : Ann)
    (rest : List Ann) (e : PyError) (h : is_shape_or_dtype a = false)
    (hr : numpy_scan dd s rest = .error e) :
    numpy_scan dd s (a :: rest) = .error e := by
  cases a <;> simp_all [numpy_scan, is_shape_or_dtype]

theorem numpy_scan_all_eq (d : String) (l : List Ann) :
    ∀ s : Option (List Int), (∀ x, Ann.DType x ∈ l → x = d) →
      ∃ s' r, numpy_scan (some d) s l = .ok (some d, s', r) := by
  induction l with
  | nil => exact fun s _ => ⟨s, [], rfl⟩
  | cons a rest ih =>
    intro s h
    have hrest : ∀ x, Ann.DType x ∈ rest → x = d :=
      fun x hx => h x (List.mem_cons_of_mem _ hx)
    cases a with
    | Shape dims =>
      obtain ⟨s', r, hr⟩ := ih (some dims) hrest
      exact ⟨s', r, by simpa [numpy_scan] using hr⟩
    | DType dt =>
      have hdt : dt = d := h dt (List.mem_cons_self _ _)
      subst hdt
      obtain ⟨s', r, hr⟩ := ih s hrest
      exact ⟨s', r, by simpa [numpy_scan] using hr⟩
    | ContentType c =>
      obtain ⟨s', r, hr⟩ := ih s hrest
      exact ⟨s', _ :: r, numpy_scan_cons_other _ _ (.ContentType c) _ rfl _ _ _ hr⟩
    | DataframeSchema =>
      obtain ⟨s', r, hr⟩ := ih s hrest
      exact ⟨s', _ :: r, numpy_scan_cons_other _ _ .DataframeSchema _ rfl _ _ _ hr⟩
    | TensorSchema f dt sh =>
      obtain ⟨s', r, hr⟩ := ih s hrest
      exact ⟨s', _ :: r, numpy_scan_cons_other _ _ (.TensorSchema f dt sh) _ rfl _ _ _ hr⟩
    | FileSchema c =>
      obtain ⟨s', r, hr⟩ := ih s hrest
      exact ⟨s', _ :: r, numpy_scan_cons_other _ _ (.FileSchema c) _ rfl _ _ _ hr⟩
    | PILImageEncoder =>
      obtain ⟨s', r, hr⟩ := ih s hrest
      exact ⟨s', _ :: r, numpy_scan_cons_other _ _ .PILImageEncoder _ rfl _ _ _ hr⟩
    | known t =>
      obtain ⟨s', r, hr⟩ := ih s hrest
      exact ⟨s', _ :: r, numpy_scan_cons_other _ _ (.known t) _ rfl _ _ _ hr⟩
    | other t =>
      obtain ⟨s', r, hr⟩ := ih s hrest
      exact ⟨s', _ :: r, numpy_scan_cons_other _ _ (.other t) _ rfl _ _ _ hr⟩

theorem numpy_scan_conflict (d : String) (l : List Ann) :
    ∀ s : Option (List Int), (∃ x, Ann.DType x ∈ l ∧ x ≠ d) →
      ∃ m, numpy_scan (some d) s l = .error (.valueError m) := by
  induction l with
  | nil =>
    rintro s ⟨x, hx, -⟩
    exact absurd hx (List.not_mem_nil _)
  | cons a rest ih =>
    rintro s ⟨x, hx, hxd⟩
    cases a with
    | Shape dims =>
      have hxr : Ann.DType x ∈ rest := by simpa using hx
      obtain ⟨m, hm⟩ := ih (some dims) ⟨x, hxr, hxd⟩
      exact ⟨m, by simpa [numpy_scan] using hm⟩
    | DType dt =>
      by_cases hdt : d = dt
      · subst hdt
        have hxr : Ann.DType x ∈ rest := by
          rcases (by simpa using hx : x = d ∨ Ann.DType x ∈ rest) with rfl | h
          · exact absurd rfl hxd
          · exact h
        obtain ⟨m, hm⟩ := ih s ⟨x, hxr, hxd⟩
        exact ⟨m, by simpa [numpy_scan] using hm⟩
      · exact ⟨"Conflicting dtype annotations: " ++ d ++ " and " ++ dt, by simp [numpy_scan, hdt]⟩
    | ContentType c =>
      have hxr : Ann.DType x ∈ rest := by simpa using hx
      obtain ⟨m, hm⟩ := ih s ⟨x, hxr, hxd⟩
      exact ⟨m, numpy_scan_cons_other_err _ _ (.ContentType c) _ _ rfl hm⟩
    | DataframeSchema =>
      have hxr : Ann.DType x ∈ rest := by simpa using hx
      obtain ⟨m, hm⟩ := ih s ⟨x, hxr, hxd⟩
      exact ⟨m, numpy_scan_cons_other_err _ _ .DataframeSchema _ _ rfl hm⟩
    | TensorSchema f dt sh =>
      have hxr : Ann.DType x ∈ rest := by simpa using hx
      obtain ⟨m, hm⟩ := ih s ⟨x, hxr, hxd⟩
      exact ⟨m, numpy_scan_cons_other_err _ _ (.TensorSchema f dt sh) _ _ rfl hm⟩
    | FileSchema c =>
      have hxr : Ann.DType x ∈ rest := by simpa using hx
      obtain ⟨m, hm⟩ := ih s ⟨x, hxr, hxd⟩
      exact ⟨m, numpy_scan_cons_other_err _ _ (.FileSchema c) _ _ rfl hm⟩
    | PILImageEncoder =>
      have hxr : Ann.DType x ∈ rest := by simpa using hx
      obtain ⟨m, hm⟩ := ih s ⟨x, hxr, hxd⟩
      exact ⟨m, numpy_scan_cons_other_err _ _ .PILImageEncoder _ _ rfl hm⟩
    | known t =>
      have hxr : Ann.DType x ∈ rest := by simpa using hx
      obtain ⟨m, hm⟩ := ih s ⟨x, hxr, hxd⟩
      exact ⟨m, numpy_scan_cons_other_err _ _ (.known t) _ _ rfl hm⟩
    | other t =>
      have hxr : Ann.DType x ∈ rest := by simpa using hx
      obtain ⟨m, hm⟩ := ih s ⟨x, hxr, hxd⟩
      exact ⟨m, numpy_scan_cons_other_err _ _ (.other t) _ _ rfl hm⟩

theorem numpy_scan_none_conflict (l : List Ann) :
    ∀ (s : Option (List Int)) (a b : String), Ann.DType a ∈ l → Ann.DType b ∈ l → a ≠ b →
      ∃ m, numpy_scan none s l = .error (.valueError m) := by
  induction l with
  | nil =>
    intro s a b ha _ _
    exact absurd ha (List.not_mem_nil _)
  | cons x rest ih =>
    intro s a b ha hb hab
    cases x with
    | Shape dims =>
      have ha' : Ann.DType a ∈ rest := by simpa using ha
      have hb' : Ann.DType b ∈ rest := by simpa using hb
      obtain ⟨m, hm⟩ := ih (some dims) a b ha' hb' hab
      exact ⟨m, by simpa [numpy_scan] using hm⟩
    | DType y =>
      have key : ∃ z, Ann.DType z ∈ rest ∧ z ≠ y := by
        have ha2 : a = y ∨ Ann.DType a ∈ rest := by simpa using ha
        have hb2 : b = y ∨ Ann.DType b ∈ rest := by simpa using hb
        by_cases hay : a = y
        · rcases hb2 with hby | hb'
          · exact absurd (hay.trans hby.symm) hab
          · exact ⟨b, hb', fun h => hab (hay.trans h.symm)⟩
        · rcases ha2 with hay2 | ha'
          · exact absurd hay2 hay
          · exact ⟨a, ha', hay⟩
      obtain ⟨z, hz, hzy⟩ := key
      obtain ⟨m, hm⟩ := numpy_scan_conflict y rest s ⟨z, hz, hzy⟩
      exact ⟨m, by simpa [numpy_scan] using hm⟩
    | ContentType c =>
      have ha' : Ann.DType a ∈ rest := by simpa using ha
      have hb' : Ann.DType b ∈ rest := by simpa using hb
      obtain ⟨m, hm⟩ := ih s a b ha' hb' hab
      exact ⟨m, numpy_scan_cons_other_err _ _ (.ContentType c) _ _ rfl hm⟩
    | DataframeSchema =>
      have ha' : Ann.DType a ∈ rest := by simpa using ha
      have hb' : Ann.DType b ∈ rest := by simpa using hb
      obtain ⟨m, hm⟩ := ih s a b ha' hb' hab
      exact ⟨m, numpy_scan_cons_other_err _ _ .DataframeSchema _ _ rfl hm⟩
    | TensorSchema f dt sh =>
      have ha' : Ann.DType a ∈ rest := by simpa using ha
      have hb' : Ann.DType b ∈ rest := by simpa using hb
      obtain ⟨m, hm⟩ := ih s a b ha' hb' hab
      exact ⟨m, numpy_scan_cons_other_err _ _ (.TensorSchema f dt sh) _ _ rfl hm⟩
    | FileSchema c =>
      have ha' : Ann.DType a ∈ rest := by simpa using ha
      have hb' : Ann.DType b ∈ rest := by simpa using hb
      obtain ⟨m, hm⟩ := ih s a b ha' hb' hab
      exact ⟨m, numpy_scan_cons_other_err _ _ (.FileSchema c) _ _ rfl hm⟩
    | PILImageEncoder =>
      have ha' : Ann.DType a ∈ rest := by simpa using ha
      have hb' : Ann.DType b ∈ rest := by simpa using hb
      obtain ⟨m, hm⟩ := ih s a b ha' hb' hab
      exact ⟨m, numpy_scan_cons_other_err _ _ .PILImageEncoder _ _ rfl hm⟩
    | known t =>
      have ha' : Ann.DType a ∈ rest := by simpa using ha
      have hb' : Ann.DType b ∈ rest := by simpa using hb
      obtain ⟨m, hm⟩ := ih s a b ha' hb' hab
      exact ⟨m, numpy_scan_cons_other_err _ _ (.known t) _ _ rfl hm⟩
    | other t =>
      have ha' : Ann.DType a ∈ rest := by simpa using ha
      have hb' : Ann.DType b ∈ rest := by simpa using hb
      obtain ⟨m, hm⟩ := ih s a b ha' hb' hab
      exact ⟨m, numpy_scan_cons_other_err _ _ (.other t) _ _ rfl hm⟩

theorem dtype_mem_other (anns : List Ann) (x : String) :
    Ann.DType x ∈ (collect_known_metadata anns).2 ↔ Ann.DType x ∈ anns := by
  simp [collect_known_metadata, List.mem_filter, is_known]

theorem not_class_issubclass (t : PyType) (target : ClassId) (h : is_class t = false) :
    py_issubclass t target = .error .typeError := by
  cases t <;> simp_all [is_class, py_issubclass]

theorem module_of_get_origin (t : PyType) : module_of (get_origin t) = module_of t := by
  cases t <;> rfl

theorem get_origin_of_class (t : PyType) (h : is_class t = true) : get_origin t = t := by
  cases t <;> simp_all [is_class, get_origin]

theorem issubclass_ok_is_class (t : PyType) (target : ClassId) (b : Bool)
    (h : py_issubclass t target = .ok b) : is_class t = true := by
  cases t <;> simp_all [py_issubclass, is_class]

theorem collect_other_not_known (anns : List Ann) :
    ∀ a ∈ (collect_known_metadata anns).2, is_known a = false := by
  intro a ha
  have := (List.mem_filter.mp ha).2
  simpa using this

theorem collect_of_not_known (l : List Ann) (h : ∀ a ∈ l, is_known a = false) :
    (collect_known_metadata l).2 = l := by
  simp only [collect_known_metadata]
  exact List.filter_eq_self.mpr (by intro a ha; simp [h a ha])

theorem pandas_ok_inv (src : PyType) (anns : List Ann) (t : PyType) (r : List Ann)
    (h : pandas_prepare_pydantic_annotations src anns = .ok (some (t, r))) :
    t = get_origin src ∧ str_startswith (module_of src) "pandas" = true ∧
      py_issubclass (get_origin src) pd_DataFrame_id = .ok true ∧
      r = (if ((collect_known_metadata anns).2).any is_dataframe_schema
            then (collect_known_metadata anns).2
            else .DataframeSchema :: (collect_known_metadata anns).2) := by
  by_cases hmod : str_startswith (module_of src) "pandas" = true
  · rw [pandas_prepare_pydantic_annotations, hmod] at h
    simp only [Bool.not_true, Bool.false_eq_true, if_false] at h
    cases hsub : py_issubclass (get_origin src) pd_DataFrame_id with
    | error e => rw [hsub] at h; cases h
    | ok b =>
      cases b with
      | false => rw [hsub] at h; cases h
      | true =>
        rw [hsub] at h
        by_cases hany : ((collect_known_metadata anns).2).any is_dataframe_schema = true
        · rw [if_pos hany] at h
          injection h with h1
          injection h1 with h2
          injection h2 with ht hr
          subst ht
          subst hr
          exact ⟨rfl, hmod, rfl, by simp [hany]⟩
        · rw [if_neg hany] at h
          injection h with h1
          injection h1 with h2
          injection h2 with ht hr
          subst ht
          subst hr
          exact ⟨rfl, hmod, rfl, by simp [hany]⟩
  · exfalso
    have hmf : str_startswith (module_of src) "pandas" = false := by simpa using hmod
    rw [pandas_prepare_pydantic_annotations, hmf] at h
    simp at h

/-! The claims. -/

/-- Claim C1: for a numeric-array source type whose inferred element-type name
and an explicit `DType` value are both present, resolution succeeds with that
dtype when they agree, and raises the conflict `ValueError` when they
differ. -/
theorem claim_C1_numpy_dtype_agreement (src : PyType) (d : String) (anns : List Ann)
    (hmod : str_startswith (module_of src) "numpy" = true)
    (horig : is_np_ndarray (get_origin src) = true)
    (hinf : numpy_infer_dtype src = .ok (some d))
    (hpres : ∃ x, Ann.DType x ∈ anns) :
    ((∀ x, Ann.DType x ∈ anns → x = d) →
      ∃ s r, numpy_prepare_pydantic_annotations src anns =
        .ok (some (src, .TensorSchema "numpy-array" (some d) s :: r))) ∧
    (∀ x, Ann.DType x ∈ anns → x ≠ d →
      ∃ m, numpy_prepare_pydantic_annotations src anns = .error (.valueError m)) := by
  refine ⟨?_, ?_⟩
  · intro hall
    obtain ⟨s', r, hr⟩ := numpy_scan_all_eq d ((collect_known_metadata anns).2) none
      (fun x hx => hall x ((dtype_mem_other anns x).mp hx))
    exact ⟨s', r, by simp [numpy_prepare_pydantic_annotations, hmod, horig, hinf, hr]⟩
  · intro x hx hxd
    obtain ⟨m, hm⟩ := numpy_scan_conflict d ((collect_known_metadata anns).2) none
      ⟨x, (dtype_mem_other anns x).mpr hx, hxd⟩
    exact ⟨m, by simp [numpy_prepare_pydantic_annotations, hmod, horig, hinf, hm]⟩

/-- Witness for C1 at `np.ndarray[t.Any, np.dtype[np.float32]]` with an
agreeing explicit `DType("float32")`. -/
theorem claim_C1_numpy_dtype_agreement_witness :
    ∃ s r, numpy_prepare_pydantic_annotations (np_ndarray_of "float32") [.DType "float32"] =
      .ok (some (np_ndarray_of "float32", .TensorSchema "numpy-array" (some "float32") s :: r)) :=
  (claim_C1_numpy_dtype_agreement (np_ndarray_of "float32") "float32" [.DType "float32"]
      rfl rfl rfl ⟨"float32", by simp⟩).1
    (fun x hx => by simpa using hx)

/-- Claim C2 counterexample: with two `Shape` annotations, the ML-tensor
handler keeps the value of the earlier (lower-index) one, not of the later
one as the claim states. -/
theorem claim_C2_later_annotation_cex :
    torch_prepare_pydantic_annotations torch_Tensor [.Shape [1], .Shape [2]] =
      .ok (some (torch_Tensor, [.TensorSchema "torch-tensor" none (some [1])])) ∧
    Ann.TensorSchema "torch-tensor" none (some [1]) ≠ .TensorSchema "torch-tensor" none (some [2]) :=
  ⟨rfl, by decide⟩

/-- Claim C2 as amended: for both ML-tensor handlers, the value kept in the
produced `TensorSchema` is the one of the earliest (lowest-index) matching
annotation — the reverse scan assigns descending indices, so the lowest index
is assigned last — and every matching annotation is removed from the
remaining list. -/
theorem claim_C2_earliest_annotation_wins :
    (∀ (src : PyType) (anns : List Ann), str_startswith (module_of src) "torch" = true →
      py_issubclass (get_origin src) torch_Tensor_id = .ok true →
      torch_prepare_pydantic_annotations src anns =
        .ok (some (src, .TensorSchema "torch-tensor"
          (first_dtype ((collect_known_metadata anns).2))
          (first_shape ((collect_known_metadata anns).2)) ::
          ((collect_known_metadata anns).2).filter (fun a => !is_shape_or_dtype a)))) ∧
    (∀ (src : PyType) (anns : List Ann), str_startswith (module_of src) "tensorflow" = true →
      py_issubclass (get_origin src) tf_Tensor_id = .ok true →
      tf_prepare_pydantic_annotations src anns =
        .ok (some (src, .TensorSchema "tf-tensor"
          (first_dtype ((collect_known_metadata anns).2))
          (first_shape ((collect_known_metadata anns).2)) ::
          ((collect_known_metadata anns).2).filter (fun a => !is_shape_or_dtype a)))) := by
  constructor
  · intro src anns hmod hsub
    simp [torch_prepare_pydantic_annotations, hmod, hsub, tensor_scan_eq]
  · intro src anns hmod hsub
    simp [tf_prepare_pydantic_annotations, hmod, hsub, tensor_scan_eq]

/-- Witness for the amended C2 at `torch.Tensor` with two `DType`
annotations: the earlier value `"a"` is kept. -/
theorem claim_C2_earliest_annotation_wins_witness :
    torch_prepare_pydantic_annotations torch_Tensor [.DType "a", .DType "b"] =
      .ok (some (torch_Tensor, [.TensorSchema "torch-tensor" (some "a") none])) :=
  (claim_C2_earliest_annotation_wins.1 torch_Tensor [.DType "a", .DType "b"] rfl rfl).trans rfl

/-- Claim C3 counterexample: for a parametrized dataframe source the handler
returns the generic origin, not the source type itself. -/
theorem claim_C3_source_returned_cex :
    pandas_prepare_pydantic_annotations (.generic pd_DataFrame [typing_Any]) [] =
      .ok (some (pd_DataFrame, [.DataframeSchema])) ∧
    pd_DataFrame ≠ PyType.generic pd_DataFrame [typing_Any] :=
  ⟨rfl, fun h => PyType.noConfusion h⟩

/-- Claim C3 as amended: the canonical type returned by the dataframe handler
is the generic origin of the source; it equals the source itself exactly when
the source is already an unparametrized class. -/
theorem claim_C3_origin_returned (src : PyType) (anns : List Ann) (t : PyType) (r : List Ann)
    (h : pandas_prepare_pydantic_annotations src anns = .ok (some (t, r))) :
    t = get_origin src ∧ (is_class src = true → t = src) := by
  have h1 := (pandas_ok_inv src anns t r h).1
  exact ⟨h1, fun hc => h1.trans (get_origin_of_class src hc)⟩

/-- Witness for the amended C3 at the bare `pandas.DataFrame` class. -/
theorem claim_C3_origin_returned_witness :
    pd_DataFrame = get_origin pd_DataFrame ∧
      (is_class pd_DataFrame = true → pd_DataFrame = pd_DataFrame) :=
  claim_C3_origin_returned pd_DataFrame [] pd_DataFrame [.DataframeSchema] rfl

/-- Claim C4 counterexample: `np.ndarray[int]` (a single generic argument) is
a malformed element-type specification, yet the handler raises `IndexError`
from `args[1]` instead of returning `None` — contradicting "no exception from
element-type extraction ever propagates". -/
theorem claim_C4_no_exception_cex :
    numpy_prepare_pydantic_annotations (.generic np_ndarray [builtins_int]) [] =
      .error .indexError :=
  rfl

/-- Claim C4 as amended: only a malformed element type that raises
`TypeError` in the dtype conversion makes the handler return `None`; a
generic-argument list of the wrong arity raises `IndexError`, which
propagates. -/
theorem claim_C4_malformed_dtype :
    (∀ (src : PyType) (anns : List Ann), str_startswith (module_of src) "numpy" = true →
      is_np_ndarray (get_origin src) = true →
      numpy_infer_dtype src = .error .typeError →
      numpy_prepare_pydantic_annotations src anns = .ok none) ∧
    (∀ (src : PyType) (anns : List Ann), str_startswith (module_of src) "numpy" = true →
      is_np_ndarray (get_origin src) = true →
      numpy_infer_dtype src = .error .indexError →
      numpy_prepare_pydantic_annotations src anns = .error .indexError) := by
  constructor
  · intro src anns hmod horig hinf
    simp [numpy_prepare_pydantic_annotations, hmod, horig, hinf]
  · intro src anns hmod horig hinf
    simp [numpy_prepare_pydantic_annotations, hmod, horig, hinf]

/-- A numeric-array source whose element-type argument is not a dtype:
`np.ndarray[t.Any, np.dtype[str]]`. -/
def np_ndarray_bad_dtype : PyType :=
  .generic np_ndarray [typing_Any, .generic (.cls ⟨"numpy", "dtype"⟩ []) [.cls ⟨"builtins", "str"⟩ []]]

/-- Witness for the amended C4: the `TypeError` case returns `None`, the
arity case raises `IndexError`. -/
theorem claim_C4_malformed_dtype_witness :
    numpy_prepare_pydantic_annotations np_ndarray_bad_dtype [] = .ok none ∧
    numpy_prepare_pydantic_annotations (.generic np_ndarray [builtins_int]) [.other "x"] =
      .error .indexError :=
  ⟨claim_C4_malformed_dtype.1 np_ndarray_bad_dtype [] rfl rfl rfl,
   claim_C4_malformed_dtype.2 (.generic np_ndarray [builtins_int]) [.other "x"] rfl rfl rfl⟩

/-- Claim C5: an unhashable source object makes the dispatch wrapper return
`None` without raising, regardless of what the engine's built-in resolution
would have produced. -/
theorem claim_C5_unhashable_returns_none
    (builtin : PyType → List Ann → Option (PyType × List Ann)) (o : PyType) (anns : List Ann)
    (h : py_hashable o = false) :
    _get_prepare_pydantic_annotations_for_known_type builtin o anns = .ok none := by
  simp [_get_prepare_pydantic_annotations_for_known_type, h]

/-- Witness for C5 at an unhashable object, with a built-in resolution that
would match everything — it is never consulted. -/
theorem claim_C5_unhashable_returns_none_witness :
    _get_prepare_pydantic_annotations_for_known_type
      (fun _ _ => some (np_ndarray, [])) (.obj "numpy" false) [] = .ok none :=
  claim_C5_unhashable_returns_none _ _ _ rfl

/-- Claim C6: the dispatch wrapper is the hashability check followed by
trying, in order: the path handler, the engine's built-in resolution, then
numpy, torch, tensorflow, pandas, PIL (`CUSTOM_PREPARE_METHODS`), returning
the first non-`None` result; and a preparer that returns non-`None` decides
the result with no later preparer invoked. -/
theorem claim_C6_dispatch_order :
    (∀ (builtin : PyType → List Ann → Option (PyType × List Ann)) (o : PyType) (anns : List Ann),
      _get_prepare_pydantic_annotations_for_known_type builtin o anns =
        (if py_hashable o then
          try_preparers
            (pathlib_prepare_pydantic_annotations ::
              (fun s a => Except.ok (builtin s a)) :: CUSTOM_PREPARE_METHODS) o anns
         else .ok none)) ∧
    (∀ (p : PyType → List Ann → Except PyError (Option (PyType × List Ann)))
        (rest : List (PyType → List Ann → Except PyError (Option (PyType × List Ann))))
        (o : PyType) (anns : List Ann) (res : PyType × List Ann),
      p o anns = .ok (some res) → try_preparers (p :: rest) o anns = .ok (some res)) := by
  constructor
  · intro builtin o anns
    by_cases hh : py_hashable o = true
    · cases hp : pathlib_prepare_pydantic_annotations o anns with
      | error e =>
        simp [_get_prepare_pydantic_annotations_for_known_type, try_preparers, hh, hp]
      | ok q =>
        cases q with
        | some res =>
          simp [_get_prepare_pydantic_annotations_for_known_type, try_preparers, hh, hp]
        | none =>
          cases hb : builtin o anns with
          | some res =>
            simp [_get_prepare_pydantic_annotations_for_known_type, try_preparers, hh, hp, hb]
          | none =>
            simp [_get_prepare_pydantic_annotations_for_known_type, try_preparers, hh, hp, hb]
    · have h0 : py_hashable o = false := by simpa using hh
      simp [_get_prepare_pydantic_annotations_for_known_type, h0]
  · intro p rest o anns res h
    simp [try_preparers, h]

/-- Witness for C6: a first preparer that matches decides the chain for any
tail of later preparers. -/
theorem claim_C6_dispatch_order_witness :
    try_preparers
      ((fun _ _ => Except.ok (some (pd_DataFrame, ([] : List Ann)))) :: CUSTOM_PREPARE_METHODS)
      (.obj "x" true) [] = .ok (some (pd_DataFrame, [])) :=
  claim_C6_dispatch_order.2 _ CUSTOM_PREPARE_METHODS _ [] _ rfl

/-- Claim C7: dataframe resolution inserts exactly one default
`DataframeSchema` at the front when none is present, passes the annotations
through unchanged when one is present (still exactly one), and applying the
handler to its own output changes nothing. -/
theorem claim_C7_dataframe_idempotent (src : PyType) (anns : List Ann) (t : PyType) (r : List Ann)
    (h : pandas_prepare_pydantic_annotations src anns = .ok (some (t, r))) :
    (((collect_known_metadata anns).2.any is_dataframe_schema = false →
        r = .DataframeSchema :: (collect_known_metadata anns).2) ∧
      ((collect_known_metadata anns).2.any is_dataframe_schema = true →
        r = (collect_known_metadata anns).2) ∧
      ((collect_known_metadata anns).2.countP is_dataframe_schema ≤ 1 →
        r.countP is_dataframe_schema = 1) ∧
      pandas_prepare_pydantic_annotations t r = .ok (some (t, r))) := by
  obtain ⟨ht, hmod, hsub, hr⟩ := pandas_ok_inv src anns t r h
  refine ⟨?_, ?_, ?_, ?_⟩
  · intro hfalse
    rw [hr, if_neg (by simp [hfalse])]
  · intro htrue
    rw [hr, if_pos htrue]
  · intro hle
    by_cases hany : ((collect_known_metadata anns).2).any is_dataframe_schema = true
    · rw [hr, if_pos hany]
      obtain ⟨a, haa, hpa⟩ := List.any_eq_true.mp hany
      have hpos : 0 < ((collect_known_metadata anns).2).countP is_dataframe_schema :=
        List.countP_pos_iff.mpr ⟨a, haa, hpa⟩
      omega
    · have hf : ((collect_known_metadata anns).2).any is_dataframe_schema = false := by
        simpa using hany
      rw [hr, if_neg (by simp [hf])]
      have h0 : ((collect_known_metadata anns).2).countP is_dataframe_schema = 0 := by
        rw [List.countP_eq_zero]
        intro a ha
        exact (List.any_eq_false.mp hf) a ha
      rw [List.countP_cons_of_pos _ _ (by rfl), h0]
  · have hclass : is_class (get_origin src) = true := issubclass_ok_is_class _ _ _ hsub
    have htcls : is_class t = true := ht ▸ hclass
    have hmod_t : str_startswith (module_of t) "pandas" = true := by
      rw [ht, module_of_get_origin]
      exact hmod
    have horig_t : get_origin t = t := get_origin_of_class t htcls
    have hsub_t : py_issubclass t pd_DataFrame_id = .ok true := by
      rw [ht]
      exact hsub
    have hnk : ∀ a ∈ r, is_known a = false := by
      intro a ha
      rw [hr] at ha
      by_cases hany : ((collect_known_metadata anns).2).any is_dataframe_schema = true
      · rw [if_pos hany] at ha
        exact collect_other_not_known anns a ha
      · rw [if_neg (by simp [(by simpa using hany : ((collect_known_metadata anns).2).any is_dataframe_schema = false)])] at ha
        rcases List.mem_cons.mp ha with rfl | ha'
        · rfl
        · exact collect_other_not_known anns a ha'
    have hcoll : (collect_known_metadata r).2 = r := collect_of_not_known r hnk
    have hanyr : r.any is_dataframe_schema = true := by
      rw [hr]
      by_cases hany : ((collect_known_metadata anns).2).any is_dataframe_schema = true
      · rw [if_pos hany]
        exact hany
      · rw [if_neg (by simp [(by simpa using hany : ((collect_known_metadata anns).2).any is_dataframe_schema = false)])]
        simp [List.any_cons, is_dataframe_schema]
    simp [pandas_prepare_pydantic_annotations, hmod_t, hsub_t, horig_t, hcoll, hanyr]

/-- Witness for C7: applying the handler to the bare `pandas.DataFrame` class
and the output annotations of a first resolution leaves them unchanged. -/
theorem claim_C7_dataframe_idempotent_witness :
    pandas_prepare_pydantic_annotations pd_DataFrame [.DataframeSchema] =
      .ok (some (pd_DataFrame, [.DataframeSchema])) :=
  (claim_C7_dataframe_idempotent pd_DataFrame [] pd_DataFrame [.DataframeSchema] rfl).2.2.2

/-- Claim C8: the path handler matches exactly the six filesystem-path
classes and no others; on a match it removes every `ContentType` annotation
and prepends `FileSchema(content_type)`, where `content_type` is the supplied
annotation's value (the earliest, should several occur) and `None` when no
`ContentType` annotation was supplied. -/
theorem claim_C8_path_handler :
    (∀ src : PyType, in_path_set src = true ↔
      (src = pathlib_PurePath ∨ src = pathlib_PurePosixPath ∨ src = pathlib_PureWindowsPath ∨
        src = pathlib_Path ∨ src = pathlib_PosixPath ∨ src = pathlib_WindowsPath)) ∧
    (∀ (src : PyType) (anns : List Ann), in_path_set src = false →
      pathlib_prepare_pydantic_annotations src anns = .ok none) ∧
    (∀ (src : PyType) (anns : List Ann), in_path_set src = true →
      pathlib_prepare_pydantic_annotations src anns =
        .ok (some (src, .FileSchema (first_content_type ((collect_known_metadata anns).2)) ::
          ((collect_known_metadata anns).2).filter (fun a => !is_content_type a)))) ∧
    (∀ l : List Ann, (∀ c, Ann.ContentType c ∉ l) → first_content_type l = none) ∧
    (∀ (c : String) (l : List Ann), first_content_type (.ContentType c :: l) = some c) := by
  refine ⟨?_, ?_, ?_, ?_, ?_⟩
  · intro src
    cases src <;>
      simp [in_path_set, pathlib_PurePath, pathlib_PurePosixPath, pathlib_PureWindowsPath,
        pathlib_Path, pathlib_PosixPath, pathlib_WindowsPath] <;>
      tauto
  · intro src anns hp
    simp [pathlib_prepare_pydantic_annotations, hp]
  · intro src anns hp
    simp [pathlib_prepare_pydantic_annotations, hp, path_scan_eq]
  · intro l h
    induction l with
    | nil => rfl
    | cons a rest ih =>
      have ih2 : first_content_type rest = none :=
        ih (fun c hc => h c (List.mem_cons_of_mem _ hc))
      cases a with
      | ContentType c => exact absurd (List.mem_cons_self _ _) (h c)
      | Shape dims => exact ih2
      | DType d => exact ih2
      | DataframeSchema => exact ih2
      | TensorSchema f d sh => exact ih2
      | FileSchema c => exact ih2
      | PILImageEncoder => exact ih2
      | known t => exact ih2
      | other t => exact ih2
  · intro c l
    rfl

/-- Witness for C8: `pathlib.Path` with a `ContentType("application/pdf")`
annotation yields `[FileSchema("application/pdf")]`; a non-path class is not
matched. -/
theorem claim_C8_path_handler_witness :
    pathlib_prepare_pydantic_annotations pathlib_Path [.ContentType "application/pdf"] =
      .ok (some (pathlib_Path, [.FileSchema (some "application/pdf")])) ∧
    pathlib_prepare_pydantic_annotations np_ndarray [.ContentType "application/pdf"] = .ok none :=
  ⟨(claim_C8_path_handler.2.2.1 pathlib_Path [.ContentType "application/pdf"] rfl).trans rfl,
    claim_C8_path_handler.2.1 np_ndarray [.ContentType "application/pdf"] rfl⟩

/-- Claim C9 counterexample: a hashable non-class object in the torch
namespace reaches `issubclass`, which raises `TypeError`; the exception
propagates out of the dispatch wrapper, so the numpy conflict `ValueError` is
not the only exception the handlers propagate. -/
theorem claim_C9_only_value_error_cex :
    _get_prepare_pydantic_annotations_for_known_type (fun _ _ => none) (.obj "torch" true) [] =
      .error .typeError :=
  rfl

/-- Claim C9 as amended: besides the numpy conflict `ValueError`, a
family-namespace source whose generic origin is not a class makes the
subclass check raise `TypeError` (propagated), and a numeric-array source
with a single generic argument raises `IndexError` (propagated); the path
handler, by contrast, never raises. -/
theorem claim_C9_propagating_errors :
    (∀ (src : PyType) (anns : List Ann), str_startswith (module_of src) "torch" = true →
      is_class (get_origin src) = false →
      torch_prepare_pydantic_annotations src anns = .error .typeError) ∧
    (∀ anns : List Ann,
      numpy_prepare_pydantic_annotations (.generic np_ndarray [builtins_int]) anns =
        .error .indexError) ∧
    (∀ (src : PyType) (anns : List Ann), ∃ q,
      pathlib_prepare_pydantic_annotations src anns = .ok q) := by
  refine ⟨?_, ?_, ?_⟩
  · intro src anns hmod hcls
    simp [torch_prepare_pydantic_annotations, hmod, not_class_issubclass _ _ hcls]
  · intro anns
    rfl
  · intro src anns
    by_cases hp : in_path_set src = true
    · refine ⟨some (src, .FileSchema (first_content_type ((collect_known_metadata anns).2)) ::
        ((collect_known_metadata anns).2).filter (fun a => !is_content_type a)), ?_⟩
      simp [pathlib_prepare_pydantic_annotations, hp, path_scan_eq]
    · have hf : in_path_set src = false := by simpa using hp
      exact ⟨none, by simp [pathlib_prepare_pydantic_annotations, hf]⟩

/-- Witness for the amended C9 at a non-class torch-namespace object. -/
theorem claim_C9_propagating_errors_witness :
    torch_prepare_pydantic_annotations (.obj "torch" true) [.other "x"] = .error .typeError :=
  claim_C9_propagating_errors.1 (.obj "torch" true) [.other "x"] rfl rfl

/-- Claim C10: two explicit `DType` annotations with different values raise
the conflict `ValueError` even when the source type carries no inferred
element type — the conflict check compares against the running dtype, which
the earlier explicit annotation has set. -/
theorem claim_C10_double_dtype_conflict (src : PyType) (anns : List Ann) (a b : String)
    (hmod : str_startswith (module_of src) "numpy" = true)
    (horig : is_np_ndarray (get_origin src) = true)
    (hinf : numpy_infer_dtype src = .ok none)
    (ha : Ann.DType a ∈ anns) (hb : Ann.DType b ∈ anns) (hab : a ≠ b) :
    ∃ m, numpy_prepare_pydantic_annotations src anns = .error (.valueError m) := by
  obtain ⟨m, hm⟩ := numpy_scan_none_conflict ((collect_known_metadata anns).2) none a b
    ((dtype_mem_other anns a).mpr ha) ((dtype_mem_other anns b).mpr hb) hab
  exact ⟨m, by simp [numpy_prepare_pydantic_annotations, hmod, horig, hinf, hm]⟩

/-- Witness for C10 at the bare `np.ndarray` class (no inferred dtype) with
two conflicting explicit `DType` annotations. -/
theorem claim_C10_double_dtype_conflict_witness :
    ∃ m, numpy_prepare_pydantic_annotations np_ndarray [.DType "float32", .DType "int64"] =
      .error (.valueError m) :=
  claim_C10_double_dtype_conflict np_ndarray [.DType "float32", .DType "int64"] "float32" "int64"
    rfl rfl rfl (by simp) (by simp) (by decide)
